import Mathlib

/-!
Shallow embedding of `src/benchmark.py` (an Ollama benchmarking script) and
verification of its specification claims.

Modelling conventions:
- Python `int` fields become `Int`; durations are nanosecond counts.
- Python float division is embedded over `ℚ`; a `ZeroDivisionError` is
  modelled by `Option.none` (`safeDiv`).
- A raised exception (`ValueError`, `AttributeError`) is modelled by
  `Except.error` / `Option.none` at the point where Python would raise.
- Side-effecting `print` warnings are modelled by returning a warning count
  alongside the value.
- The external inference client (`ollama.chat`) is a parameter
  `client : String → String → Option RawResponse`; `none` models the client
  returning no result at all.
-/

namespace Benchmark

/-- `Message` model from the source (pydantic `BaseModel`). -/
structure Message where
  role : String
  content : String
deriving Repr, DecidableEq

/-- The raw response map coming back from the inference client, before
pydantic validation.  Fields that the pydantic model defaults when absent
(`load_duration`, `prompt_eval_count`) are `Option`; `none` means the key is
missing from the raw map.  `created_at` is an opaque timestamp. -/
structure RawResponse where
  model : String
  created_at : Nat
  message : Message
  done : Bool
  total_duration : Int
  load_duration : Option Int
  prompt_eval_count : Option Int
  prompt_eval_duration : Int
  eval_count : Int
  eval_duration : Int
deriving Repr, DecidableEq

/-- The validated `OllamaResponse` pydantic model from the source. -/
structure OllamaResponse where
  model : String
  created_at : Nat
  message : Message
  done : Bool
  total_duration : Int
  load_duration : Int
  prompt_eval_count : Int
  prompt_eval_duration : Int
  eval_count : Int
  eval_duration : Int
deriving Repr, DecidableEq

/-- The `validate_prompt_eval_count` field validator: maps the sentinel `-1`
to `0` and prints one warning; every other value passes through unchanged.
The second component counts the warnings printed (0 or 1). -/
def validate_prompt_eval_count (value : Int) : Int × Nat :=
  if value = -1 then (0, 1) else (value, 0)

/-- `OllamaResponse.model_validate` applied to a raw client map.  A missing
`load_duration` defaults to `0`; a missing `prompt_eval_count` defaults to
`-1` with `validate_default=True`, so the field validator runs on the
default as well as on any supplied value.  No other field has a validator or
a constraint.  Returns the validated model together with the number of
warnings printed during validation. -/
def model_validate (raw : RawResponse) : OllamaResponse × Nat :=
  let pec := validate_prompt_eval_count (raw.prompt_eval_count.getD (-1))
  ({ model := raw.model
     created_at := raw.created_at
     message := raw.message
     done := raw.done
     total_duration := raw.total_duration
     load_duration := raw.load_duration.getD 0
     prompt_eval_count := pec.1
     prompt_eval_duration := raw.prompt_eval_duration
     eval_count := raw.eval_count
     eval_duration := raw.eval_duration }, pec.2)

/-- `nanosec_to_sec`: `nanosec / 1000000000` (Python float division,
embedded over `ℚ`). -/
def nanosec_to_sec (nanosec : ℚ) : ℚ :=
  nanosec / 1000000000

/-- Python division `a / b`, which raises `ZeroDivisionError` when `b == 0`;
the raise is modelled by `none`. -/
def safeDiv (a b : ℚ) : Option ℚ :=
  if b = 0 then none else some (a / b)

/-- The three tokens-per-second rates computed by `inference_stats`:
prompt rate, response rate, total rate.  `none` models the
`ZeroDivisionError` the source raises when a duration denominator is zero
(the source has no guard). -/
def inference_stats (r : OllamaResponse) : Option (ℚ × ℚ × ℚ) :=
  match safeDiv (r.prompt_eval_count : ℚ) (nanosec_to_sec (r.prompt_eval_duration : ℚ)),
        safeDiv (r.eval_count : ℚ) (nanosec_to_sec (r.eval_duration : ℚ)),
        safeDiv ((r.prompt_eval_count : ℚ) + (r.eval_count : ℚ))
          (nanosec_to_sec ((r.prompt_eval_duration : ℚ) + (r.eval_duration : ℚ))) with
  | some p, some q, some t => some (p, q, t)
  | _, _, _ => none

/-- `average_stats`: on an empty list it prints "No stats to average" and
returns (modelled by `none`, no aggregate produced); on a non-empty list it
builds a synthetic `OllamaResponse` through the pydantic constructor, which
re-runs the `prompt_eval_count` field validator on the summed count.  `now`
stands for `datetime.now()`.  Returns the aggregate together with the number
of validation warnings printed while constructing it. -/
def average_stats (now : Nat) (responses : List OllamaResponse) :
    Option (OllamaResponse × Nat) :=
  match responses with
  | [] => none
  | r0 :: _ =>
    let pec := validate_prompt_eval_count
      ((responses.map (fun r => r.prompt_eval_count)).sum)
    some ({ model := r0.model
            created_at := now
            message := { role := "system"
                         content := "Average stats across " ++
                           toString responses.length ++ " runs" }
            done := true
            total_duration := (responses.map (fun r => r.total_duration)).sum
            load_duration := (responses.map (fun r => r.load_duration)).sum
            prompt_eval_count := pec.1
            prompt_eval_duration :=
              (responses.map (fun r => r.prompt_eval_duration)).sum
            eval_count := (responses.map (fun r => r.eval_count)).sum
            eval_duration := (responses.map (fun r => r.eval_duration)).sum },
          pec.2)

/-- `run_benchmark`: invokes the inference client for one (model, prompt)
pair.  In verbose mode the source keeps the last streamed chunk, otherwise
the single blocking result; either way `last_element` is the final result
from the client, abstracted here as `client model_name prompt`.  If the client
returned nothing the source prints "System Error: No response received from
ollama" and returns `None` (modelled by `none`); otherwise it returns
`OllamaResponse.model_validate(last_element)`. -/
def run_benchmark (client : String → String → Option RawResponse)
    (model_name : String) (prompt : String) : Option OllamaResponse :=
  match client model_name prompt with
  | none => none
  | some raw => some (model_validate raw).1

/-- The benchmark accumulation loop of `main`: for each selected model, for
each prompt, `responses.append(run_benchmark(...))` — the result of
`run_benchmark` is appended unconditionally, `None` included.  The result is
the `benchmarks` dict as an association list in insertion order. -/
def main_bench_loop (client : String → String → Option RawResponse)
    (selected_models : List String) (prompts : List String) :
    List (String × List (Option OllamaResponse)) :=
  selected_models.map (fun m => (m, prompts.map (fun p => run_benchmark client m p)))

/-- The final reporting loop of `main` calls `average_stats(responses)` on a
list that may contain `None` entries.  `average_stats` evaluates
`sum(r.total_duration for r in responses)`, which dereferences each element;
on a `None` element Python raises `AttributeError` (modelled by the outer
`none`).  Otherwise the normal `average_stats` result is returned. -/
def average_stats_main (now : Nat) (responses : List (Option OllamaResponse)) :
    Option (Option (OllamaResponse × Nat)) :=
  if responses.any (fun r => r.isNone) then none
  else some (average_stats now (responses.reduceOption))

/-- `get_benchmark_models`: raises `ValueError` (modelled by `Except.error`)
when both `models_to_use` and `models_to_skip` are non-empty; otherwise
filters the copied available list, keeping models in `models_to_use` when
that list is non-empty, else dropping models in `models_to_skip` when that
list is non-empty, else returning the full list. -/
def get_benchmark_models (models_list : List String)
    (models_to_use : List String := []) (models_to_skip : List String := []) :
    Except String (List String) :=
  if 0 < models_to_use.length ∧ 0 < models_to_skip.length then
    Except.error
      ("Cannot provide both Models to use and Models to skip at the same time")
  else if 0 < models_to_use.length then
    Except.ok (models_list.filter (fun m => models_to_use.contains m))
  else if 0 < models_to_skip.length then
    Except.ok (models_list.filter (fun m => !models_to_skip.contains m))
  else
    Except.ok models_list

/-- `validate_input`: removes spaces, then requires the result to match
`^[0-9,]+$` (at least one character, each a digit or a comma); on a
mismatch raises `ValueError` (modelled by `Except.error`).  A Python string
is its character sequence, so `replace(" ", "")` with the one-character
pattern is exactly the removal of every space character. -/
def validate_input (user_input : String) : Except String String :=
  let s := String.mk (user_input.data.filter (fun c => c ≠ ' '))
  if 0 < s.data.length ∧ s.data.all (fun c => c.isDigit || c == ',') then
    Except.ok s
  else Except.error ("Invalid input. Please enter only digits and commas.")

/-- Python `str.split(",")` for the one-character separator: splits the
character sequence at every comma, keeping empty segments (so `""` gives
`[""]` and `","` gives `["", ""]`, as in Python). -/
def split_commas : List Char → List (List Char)
  | [] => [[]]
  | c :: rest =>
    if c = ',' then [] :: split_commas rest
    else
      match split_commas rest with
      | s :: ss => (c :: s) :: ss
      | [] => [[c]]

/-- Python `int(s)` on the strings reaching it here (segments of a
`[0-9,]+` string, hence digit strings or empty): a non-empty digit string
parses to its decimal value, anything else — in particular the empty
segment of `","` — raises `ValueError` (modelled by `Except.error`). -/
def py_int (s : List Char) : Except String Int :=
  if s ≠ [] ∧ s.all (fun c => c.isDigit) then
    Except.ok (s.foldl (fun n c => 10 * n + ((c.toNat : Int) - 48)) 0)
  else Except.error ("invalid literal for int() with base 10")

/-- The loop body of `validate_selection_range`: walks the comma-separated
segments in order; parsing a segment may raise (`Except.error`); the first
parsed index outside `[1, m]` prints an error and returns `False`
(`Except.ok false`) without examining later segments. -/
def check_indices (segs : List (List Char)) (m : Nat) : Except String Bool :=
  match segs with
  | [] => Except.ok true
  | s :: rest =>
    match py_int s with
    | Except.error e => Except.error e
    | Except.ok i =>
      if 1 ≤ i ∧ i ≤ (m : Int) then check_indices rest m else Except.ok false

/-- `validate_selection_range(user_input, max)`: splits on commas and checks
every index; returns `user_input` itself on success (`Except.ok (some _)`),
`False` on an out-of-range index (`Except.ok none`), and propagates the
`ValueError` raised by `int()` on a malformed segment (`Except.error`). -/
def validate_selection_range (user_input : String) (m : Nat) :
    Except String (Option String) :=
  match check_indices (split_commas user_input.data) m with
  | Except.error e => Except.error e
  | Except.ok true => Except.ok (some user_input)
  | Except.ok false => Except.ok none

/-- The interactive "select models to use" flow of `main` (choice A): the
`try` block runs `validate_input`, then `validate_selection_range`, then
maps each index `i` to `models_list[int(i)-1]`; any `ValueError` raised
inside is caught by the `except ValueError` handler, which prints an error
message and returns.  `none` models every early return (caught exception or
failed range validation); `some models` the successfully selected list.
Index lookup is total here because range validation has already succeeded
(out of range would be Python `IndexError`, unreachable on this path). -/
def select_models_to_use (models_list : List String) (user_input : String) :
    Option (List String) :=
  match validate_input user_input with
  | Except.error _ => none
  | Except.ok s =>
    match validate_selection_range s models_list.length with
    | Except.error _ => none
    | Except.ok none => none
    | Except.ok (some v) =>
      some ((split_commas v.data).map (fun i =>
        match py_int i with
        | Except.ok n => models_list.getD (n - 1).toNat ""
        | Except.error _ => ""))

/-- The model-selection and benchmark phase of `main` for the
non-interactive path: with `all_models` set the full list is used without
consulting `get_benchmark_models`; otherwise `get_benchmark_models` runs
and an uncaught `ValueError` aborts the process before any request is sent
(`Except.error`).  An empty selection prints "No models selected." and
returns with no benchmark entries. -/
def main_select_and_run (client : String → String → Option RawResponse)
    (models_list models_to_use models_to_skip : List String)
    (all_models : Bool) (prompts : List String) :
    Except String (List (String × List (Option OllamaResponse))) :=
  if all_models then
    Except.ok (main_bench_loop client models_list prompts)
  else
    match get_benchmark_models models_list models_to_use models_to_skip with
    | Except.error e => Except.error e
    | Except.ok selected =>
      if selected.isEmpty then Except.ok []
      else Except.ok (main_bench_loop client selected prompts)

/-! Concrete raw responses used to evaluate the code at specific inputs. -/

/-- A raw client response whose `prompt_eval_duration` is zero (all other
fields well-formed and positive). -/
def rawZeroDuration : RawResponse :=
  { model := "m"
    created_at := 0
    message := { role := "assistant", content := "hi" }
    done := true
    total_duration := 2000000000
    load_duration := some 1000
    prompt_eval_count := some 5
    prompt_eval_duration := 0
    eval_count := 7
    eval_duration := 1000000000 }

/-- A raw client response carrying a negative `total_duration`. -/
def rawNegDuration : RawResponse :=
  { model := "m"
    created_at := 0
    message := { role := "assistant", content := "hi" }
    done := true
    total_duration := -5
    load_duration := some 1000
    prompt_eval_count := some 5
    prompt_eval_duration := 1000000000
    eval_count := 7
    eval_duration := 1000000000 }

/-- A raw client response whose `prompt_eval_count` is `-3` (passes the
field validator unchanged, since only `-1` is the sentinel). -/
def rawNegCountA : RawResponse :=
  { model := "m"
    created_at := 0
    message := { role := "assistant", content := "hi" }
    done := true
    total_duration := 2000000000
    load_duration := some 1000
    prompt_eval_count := some (-3)
    prompt_eval_duration := 1000000000
    eval_count := 7
    eval_duration := 1000000000 }

/-- A raw client response whose `prompt_eval_count` is `2`. -/
def rawNegCountB : RawResponse :=
  { model := "m"
    created_at := 0
    message := { role := "assistant", content := "hi" }
    done := true
    total_duration := 2000000000
    load_duration := some 1000
    prompt_eval_count := some 2
    prompt_eval_duration := 1000000000
    eval_count := 7
    eval_duration := 1000000000 }

/-- The validated form of `rawNegCountA` (a reachable `OllamaResponse` with
`prompt_eval_count = -3`). -/
def respNegCountA : OllamaResponse := (model_validate rawNegCountA).1

/-- The validated form of `rawNegCountB`. -/
def respNegCountB : OllamaResponse := (model_validate rawNegCountB).1

end Benchmark

namespace Benchmark

/-! Helper lemmas shared by the claim theorems. -/

/-- The `prompt_eval_count` field validator never outputs the sentinel `-1`
(it maps `-1` to `0` and anything else to itself). -/
lemma validate_prompt_eval_count_ne_neg_one (v : Int) :
    (validate_prompt_eval_count v).1 ≠ -1 := by
  by_cases h : v = -1 <;> simp [validate_prompt_eval_count, h]

/-- A natural multiple of an integer other than `-1` is never `-1`. -/
lemma natCast_mul_ne_neg_one (k : Nat) (p : Int) (hp : p ≠ -1) :
    (k : Int) * p ≠ -1 := by
  intro h
  have h1 : k * p.natAbs = 1 := by
    have h2 := congrArg Int.natAbs h
    simpa [Int.natAbs_mul] using h2
  obtain ⟨hk1, -⟩ := mul_eq_one.mp h1
  apply hp
  rw [hk1] at h
  simpa using h

/-- Scaling numerator and duration by the same nonzero factor leaves the
guarded rate computation unchanged (including the division-by-zero case,
which scales to itself). -/
lemma safeDiv_scale (k c d : ℚ) (hk : k ≠ 0) :
    safeDiv (k * c) (nanosec_to_sec (k * d)) = safeDiv c (nanosec_to_sec d) := by
  unfold safeDiv nanosec_to_sec
  by_cases hd : d = 0
  · simp [hd]
  · have hkd : k * d ≠ 0 := mul_ne_zero hk hd
    rw [if_neg (div_ne_zero hkd (by norm_num)), if_neg (div_ne_zero hd (by norm_num))]
    congr 1
    field_simp
    ring

/-- `inference_stats` is invariant under scaling all four token/duration
fields by the same nonzero natural factor. -/
lemma inference_stats_scale (k : Nat) (hk : k ≠ 0) (s r : OllamaResponse)
    (hpec : s.prompt_eval_count = (k : Int) * r.prompt_eval_count)
    (hped : s.prompt_eval_duration = (k : Int) * r.prompt_eval_duration)
    (hec : s.eval_count = (k : Int) * r.eval_count)
    (hed : s.eval_duration = (k : Int) * r.eval_duration) :
    inference_stats s = inference_stats r := by
  have hkq : ((k : ℚ)) ≠ 0 := Nat.cast_ne_zero.mpr hk
  unfold inference_stats
  rw [hpec, hped, hec, hed]
  push_cast
  rw [← mul_add, ← mul_add]
  rw [safeDiv_scale _ _ _ hkq, safeDiv_scale _ _ _ hkq, safeDiv_scale _ _ _ hkq]

/-- Summing a field over `m + 1` copies of a response multiplies it by
`m + 1`. -/
lemma sum_map_cons_replicate (f : OllamaResponse → Int) (r : OllamaResponse)
    (m : Nat) :
    ((r :: List.replicate m r).map f).sum = ((m + 1 : Nat) : Int) * f r := by
  simp [List.map_replicate, List.sum_replicate, nsmul_eq_mul]
  ring

/-- C1: the spec requires the three throughput rates to be defined under a
documented defensive policy even when a duration denominator is zero, but
`inference_stats` divides with no guard: on a validated response whose
`prompt_eval_duration` is 0 it raises `ZeroDivisionError` (modelled by
`none`) instead of producing rates. -/
theorem C1_zero_duration_divide_crash :
    inference_stats (model_validate rawZeroDuration).1 = none := by
  norm_num [inference_stats, model_validate, rawZeroDuration,
    validate_prompt_eval_count, safeDiv, nanosec_to_sec]

/-- C2: when the client returns no result, `run_benchmark` prints a system
error and returns `None`, but `main` appends that `None` to the per-model
response list anyway, so a null-like value is stored (here: both prompts of
model "m1" yield `none` entries), and the later `average_stats` call
dereferences it and raises `AttributeError` (the outer `none`), contrary to
the claim that the entry is absent. -/
theorem C2_none_is_stored_and_dereferenced :
    main_bench_loop (fun _ _ => none) ["m1"] ["p1", "p2"] =
      [("m1", [none, none])] ∧
    average_stats_main 0 [none, none] = none := by
  constructor
  · rfl
  · rfl

/-- C3: throughput is invariant under aggregation of identical responses:
for every validated response and every `n ≥ 1`, `average_stats` on `n`
copies produces an aggregate whose `inference_stats` result equals that of
the single response (the summed counts and durations scale by the same
factor `n`, and a validated `prompt_eval_count` is never the sentinel `-1`,
so re-validation of the scaled sum preserves it). -/
theorem C3_throughput_invariant_under_aggregation (raw : RawResponse) (n : Nat)
    (hn : 1 ≤ n)
    (hpd : (model_validate raw).1.prompt_eval_duration ≠ 0)
    (hed : (model_validate raw).1.eval_duration ≠ 0) :
    (average_stats 0 (List.replicate n (model_validate raw).1)).map
        (fun p => inference_stats p.1) =
      some (inference_stats (model_validate raw).1) := by
  obtain ⟨m, rfl⟩ : ∃ m, n = m + 1 := ⟨n - 1, by omega⟩
  have hpec : (model_validate raw).1.prompt_eval_count ≠ -1 :=
    validate_prompt_eval_count_ne_neg_one _
  clear hpd hed
  generalize (model_validate raw).1 = r at *
  have hmul : ((m + 1 : Nat) : Int) * r.prompt_eval_count ≠ -1 :=
    natCast_mul_ne_neg_one _ _ hpec
  rw [List.replicate_succ]
  simp only [average_stats, sum_map_cons_replicate, Option.map_some']
  congr 1
  refine inference_stats_scale (m + 1) (by omega) _ r ?_ ?_ ?_ ?_
  · unfold validate_prompt_eval_count
    rw [if_neg hmul]
  · rfl
  · rfl
  · rfl

/-- Witness for C3 at a concrete response with nonzero durations and
`n = 2`. -/
theorem C3_witness :
    (average_stats 0 (List.replicate 2 (model_validate rawNegCountB).1)).map
        (fun p => inference_stats p.1) =
      some (inference_stats (model_validate rawNegCountB).1) :=
  C3_throughput_invariant_under_aggregation rawNegCountB 2 (by decide)
    (by decide) (by decide)

/-- C4: with both `models_to_use` and `models_to_skip` non-empty,
`get_benchmark_models` always raises `ValueError` regardless of the list
contents, and on the non-`all_models` path of `main` this error propagates
before any benchmark entry is produced, so no inference request is sent. -/
theorem C4_conflicting_use_and_skip_errors
    (client : String → String → Option RawResponse)
    (models_list models_to_use models_to_skip prompts : List String)
    (hu : models_to_use ≠ []) (hs : models_to_skip ≠ []) :
    get_benchmark_models models_list models_to_use models_to_skip =
      Except.error
        ("Cannot provide both Models to use and Models to skip at the same time") ∧
    main_select_and_run client models_list models_to_use models_to_skip false prompts =
      Except.error
        ("Cannot provide both Models to use and Models to skip at the same time") := by
  have h1 : 0 < models_to_use.length := List.length_pos.mpr hu
  have h2 : 0 < models_to_skip.length := List.length_pos.mpr hs
  have hg : get_benchmark_models models_list models_to_use models_to_skip =
      Except.error
        ("Cannot provide both Models to use and Models to skip at the same time") := by
    unfold get_benchmark_models
    rw [if_pos ⟨h1, h2⟩]
  refine ⟨hg, ?_⟩
  unfold main_select_and_run
  rw [if_neg (by simp), hg]

/-- Witness for C4 at concrete lists. -/
theorem C4_witness :
    get_benchmark_models ["a", "b"] ["x"] ["y"] =
      Except.error
        ("Cannot provide both Models to use and Models to skip at the same time") :=
  (C4_conflicting_use_and_skip_errors (fun _ _ => none) ["a", "b"] ["x"] ["y"]
    ["p"] (by decide) (by decide)).1

/-- C5: `get_benchmark_models` keeps exactly the available models contained
in a non-empty `models_to_use` (in available-list order), drops the models
contained in a non-empty `models_to_skip`, and returns the full available
list when both are empty; in particular the three concrete examples of the
spec hold. -/
theorem C5_model_filtering (avail use skip : List String) :
    (use ≠ [] → skip = [] → get_benchmark_models avail use skip =
        Except.ok (avail.filter (fun m => use.contains m))) ∧
    (use = [] → skip ≠ [] → get_benchmark_models avail use skip =
        Except.ok (avail.filter (fun m => !skip.contains m))) ∧
    (use = [] → skip = [] → get_benchmark_models avail use skip =
        Except.ok avail) ∧
    get_benchmark_models ["a", "b", "c"] ["b"] [] = Except.ok ["b"] ∧
    get_benchmark_models ["a", "b", "c"] [] ["b"] = Except.ok ["a", "c"] ∧
    get_benchmark_models ["a", "b", "c"] [] [] = Except.ok ["a", "b", "c"] := by
  refine ⟨?_, ?_, ?_, by rfl, by rfl, by rfl⟩
  · intro hu hs
    have h1 : 0 < use.length := List.length_pos.mpr hu
    unfold get_benchmark_models
    rw [if_neg (by simp [hs]), if_pos h1]
  · intro hu hs
    have h2 : 0 < skip.length := List.length_pos.mpr hs
    unfold get_benchmark_models
    rw [if_neg (by simp [hu]), if_neg (by simp [hu]), if_pos h2]
  · intro hu hs
    unfold get_benchmark_models
    rw [if_neg (by simp [hu]), if_neg (by simp [hu]), if_neg (by simp [hs])]

/-- Witness for C5, discharging the hypotheses of its first conjunct at a
concrete input. -/
theorem C5_witness :
    get_benchmark_models ["x", "y"] ["y"] [] =
      Except.ok (["x", "y"].filter (fun m => ["y"].contains m)) :=
  (C5_model_filtering ["x", "y"] ["y"] []).1 (by decide) rfl

/-- C6: validation preserves any supplied `prompt_eval_count ≥ 0` unchanged
(with no warning), and an absent or sentinel `-1` count validates to `0`
with exactly one warning. -/
theorem C6_prompt_eval_count_validation (raw : RawResponse) :
    (∀ v : Int, raw.prompt_eval_count = some v → 0 ≤ v →
      (model_validate raw).1.prompt_eval_count = v ∧
      (model_validate raw).2 = 0) ∧
    ((raw.prompt_eval_count = none ∨ raw.prompt_eval_count = some (-1)) →
      (model_validate raw).1.prompt_eval_count = 0 ∧
      (model_validate raw).2 = 1) := by
  constructor
  · intro v hv h0
    have hne : v ≠ -1 := by omega
    simp [model_validate, validate_prompt_eval_count, hv, hne]
  · rintro (h | h) <;> simp [model_validate, validate_prompt_eval_count, h]

/-- Witness for C6 at a concrete raw response carrying count 5, and at one
missing the count. -/
theorem C6_witness :
    ((model_validate rawZeroDuration).1.prompt_eval_count = 5 ∧
      (model_validate rawZeroDuration).2 = 0) ∧
    ((model_validate
        { rawZeroDuration with prompt_eval_count := none }).1.prompt_eval_count = 0 ∧
      (model_validate { rawZeroDuration with prompt_eval_count := none }).2 = 1) :=
  ⟨(C6_prompt_eval_count_validation rawZeroDuration).1 5 rfl (by decide),
   (C6_prompt_eval_count_validation
      { rawZeroDuration with prompt_eval_count := none }).2 (Or.inl rfl)⟩

/-- C7 counterexample: two reachable validated responses with
`prompt_eval_count` values `-3` and `2` sum to `-1`; the aggregate built by
`average_stats` passes that sum through the pydantic field validator again,
which replaces the sentinel `-1` by `0`, so the aggregate field is NOT the
sum of the inputs. -/
theorem C7_counterexample :
    (average_stats 0 [respNegCountA, respNegCountB]).map
        (fun p => p.1.prompt_eval_count) ≠
      some (([respNegCountA, respNegCountB].map
        (fun r => r.prompt_eval_count)).sum) := by
  decide

/-- C7 (amended): on the empty list `average_stats` produces no aggregate
(only a notice); on a non-empty list it produces a synthetic response with
`done = true`, a descriptive label as message content, every numeric field
the sum of that field over the inputs — except `prompt_eval_count`, whose
sum is passed through the `-1`-sentinel field validator again (so a summed
count of exactly `-1` becomes `0`, with one warning). -/
theorem C7_average_stats_sums (now : Nat) (responses : List OllamaResponse) :
    (responses = [] → average_stats now responses = none) ∧
    (responses ≠ [] →
      (average_stats now responses).map (fun p => (p.1.done, p.1.message.content)) =
        some (true, "Average stats across " ++ toString responses.length ++ " runs") ∧
      (average_stats now responses).map (fun p => p.1.total_duration) =
        some ((responses.map (fun r => r.total_duration)).sum) ∧
      (average_stats now responses).map (fun p => p.1.load_duration) =
        some ((responses.map (fun r => r.load_duration)).sum) ∧
      (average_stats now responses).map (fun p => (p.1.prompt_eval_count, p.2)) =
        some (validate_prompt_eval_count
          ((responses.map (fun r => r.prompt_eval_count)).sum)) ∧
      (average_stats now responses).map (fun p => p.1.prompt_eval_duration) =
        some ((responses.map (fun r => r.prompt_eval_duration)).sum) ∧
      (average_stats now responses).map (fun p => p.1.eval_count) =
        some ((responses.map (fun r => r.eval_count)).sum) ∧
      (average_stats now responses).map (fun p => p.1.eval_duration) =
        some ((responses.map (fun r => r.eval_duration)).sum)) := by
  cases responses with
  | nil => simp [average_stats]
  | cons r0 rest =>
    refine ⟨by simp, fun _ => ?_⟩
    simp [average_stats]

/-- Witness for C7 (amended) on a concrete singleton list. -/
theorem C7_witness :
    (average_stats 3 [respNegCountB]).map (fun p => p.1.eval_count) =
      some (([respNegCountB].map (fun r => r.eval_count)).sum) :=
  ((C7_average_stats_sums 3 [respNegCountB]).2 (by decide)).2.2.2.2.2.1

/-- C8 counterexample: a raw response with `total_duration = -5` validates
successfully and the validated instance carries the negative value, so
validation enforces no non-negativity invariant on durations. -/
theorem C8_counterexample :
    (model_validate rawNegDuration).1.total_duration = -5 ∧
    (model_validate rawNegDuration).1.total_duration < 0 := by
  decide

/-- C8 (amended): validation passes every duration field through unchanged
(`load_duration` defaulting to 0 when absent) with no sign check; the
validated durations are non-negative exactly when the raw response supplied
non-negative durations. -/
theorem C8_durations_passthrough (raw : RawResponse) :
    ((model_validate raw).1.total_duration = raw.total_duration ∧
     (model_validate raw).1.load_duration = raw.load_duration.getD 0 ∧
     (model_validate raw).1.prompt_eval_duration = raw.prompt_eval_duration ∧
     (model_validate raw).1.eval_duration = raw.eval_duration) ∧
    (0 ≤ raw.total_duration → 0 ≤ raw.load_duration.getD 0 →
     0 ≤ raw.prompt_eval_duration → 0 ≤ raw.eval_duration →
      0 ≤ (model_validate raw).1.total_duration ∧
      0 ≤ (model_validate raw).1.load_duration ∧
      0 ≤ (model_validate raw).1.prompt_eval_duration ∧
      0 ≤ (model_validate raw).1.eval_duration) := by
  refine ⟨⟨rfl, rfl, rfl, rfl⟩, fun h1 h2 h3 h4 => ⟨h1, h2, h3, h4⟩⟩

/-- Witness for C8 (amended) at a concrete all-non-negative raw response. -/
theorem C8_witness :
    0 ≤ (model_validate rawZeroDuration).1.total_duration ∧
    0 ≤ (model_validate rawZeroDuration).1.load_duration ∧
    0 ≤ (model_validate rawZeroDuration).1.prompt_eval_duration ∧
    0 ≤ (model_validate rawZeroDuration).1.eval_duration :=
  (C8_durations_passthrough rawZeroDuration).2 (by decide) (by decide)
    (by decide) (by decide)

/-- C9: the selection input "1,2,10" against a 3-model list is rejected by
`validate_selection_range` (index 10 outside `[1,3]`, returning `False`),
while "1, 2" is normalized by `validate_input` to "1,2" (space removal,
then only digits and commas) and accepted by `validate_selection_range`
against any model count `N ≥ 2`. -/
theorem C9_selection_range_validation (N : Nat) (hN : 2 ≤ N) :
    validate_selection_range "1,2,10" 3 = Except.ok none ∧
    validate_input "1, 2" = Except.ok "1,2" ∧
    validate_selection_range "1,2" N = Except.ok (some "1,2") := by
  refine ⟨by rfl, by rfl, ?_⟩
  have hsplit : split_commas "1,2".data = [['1'], ['2']] := by rfl
  have h1 : py_int ['1'] = Except.ok 1 := by rfl
  have h2 : py_int ['2'] = Except.ok 2 := by rfl
  have hc : check_indices [['1'], ['2']] N = Except.ok true := by
    have hb1 : (1 : Int) ≤ 1 ∧ (1 : Int) ≤ (N : Int) := by omega
    have hb2 : (1 : Int) ≤ 2 ∧ (2 : Int) ≤ (N : Int) := by
      constructor
      · omega
      · exact_mod_cast hN
    simp [check_indices, h1, h2, hb1, hb2]
  simp [validate_selection_range, hsplit, hc]

/-- Witness for C9 at `N = 2`. -/
theorem C9_witness :
    validate_selection_range "1,2,10" 3 = Except.ok none ∧
    validate_input "1, 2" = Except.ok "1,2" ∧
    validate_selection_range "1,2" 2 = Except.ok (some "1,2") :=
  C9_selection_range_validation 2 (by decide)

/-- C10: lexical validation does not make range validation total: the
inputs "," and "1,,2" pass `validate_input` (only digits and commas) yet
make `validate_selection_range` raise `ValueError` (`int` applied to an
empty segment) rather than return `False` or the input; the interactive
selection flow of `main` catches that exception and terminates with an
error message (`none`), not a stack trace. -/
theorem C10_range_validation_raises_on_empty_segment :
    validate_input "," = Except.ok "," ∧
    validate_selection_range "," 3 =
      Except.error ("invalid literal for int() with base 10") ∧
    validate_input "1,,2" = Except.ok "1,,2" ∧
    validate_selection_range "1,,2" 3 =
      Except.error ("invalid literal for int() with base 10") ∧
    select_models_to_use ["a", "b", "c"] "," = none := by
  refine ⟨by rfl, by rfl, by rfl, by rfl, by rfl⟩

end Benchmark
